import Mathlib

/-!
Verification of the locally-authored logic of the `white-matter-matters`
notebooks: the b-value formula, the Stejskal-Tanner signal equation, the
white-matter mask derivation, the streamline length filter, and the
Gaussian ROI smoothing step.  Python floats are modelled as real numbers;
`np.exp` is `Real.exp` and `np.pi` is `Real.pi`.
-/

open Real

/-- Shallow embedding of the notebook function
`b_value(g, delta, Delta, gamma=42.576)`:
`G = g*1e-3*1e-6`, `gamma = 2*np.pi*gamma*1e6*1e-3`,
`b = gamma ** 2 * G ** 2 * delta ** 2 * (Delta - delta/3)`, returns `1000 * b`. -/
noncomputable def b_value (g delta Delta : ℝ) (gamma : ℝ := 42.576) : ℝ :=
  let G : ℝ := g * 1e-3 * 1e-6
  let gammar : ℝ := 2 * Real.pi * gamma * 1e6 * 1e-3
  let b : ℝ := gammar ^ 2 * G ^ 2 * delta ^ 2 * (Delta - delta / 3)
  1000 * b

/-- The body of the Python `b_value` contains no `raise` and no validation:
running it is modelled as an `Except`-valued computation that always
returns `Except.ok` of the computed value. -/
noncomputable def b_value_run (g delta Delta : ℝ) (gamma : ℝ := 42.576) :
    Except String ℝ :=
  Except.ok (b_value g delta Delta gamma)

/-- Shallow embedding of `ST_equation(b, D, S0=1) = S0 * np.exp(-b * D)`. -/
noncomputable def ST_equation (b D : ℝ) (S0 : ℝ := 1) : ℝ :=
  S0 * Real.exp (-b * D)

/-- The b value computed inside `viz_gradients(g, delta, Delta)`:
`b = b_value(g, delta, Delta)` with the default gamma; the plot is
annotated with the text `b=` followed by `int(b)`. -/
noncomputable def viz_b (g delta Delta : ℝ) : ℝ :=
  b_value g delta Delta

/-- Python `int()` on a float: truncation toward zero. -/
noncomputable def pyInt (x : ℝ) : ℤ :=
  if 0 ≤ x then ⌊x⌋ else ⌈x⌉

/-- Numpy coercion of a boolean to an integer (as used when `==` compares a
boolean array against an integer): `True ↦ 1`, `False ↦ 0`. -/
def boolToInt (b : Bool) : ℤ :=
  if b then 1 else 0

/-- Shallow embedding of `white_matter = (labels == 1) | (labels == 2)`:
an elementwise equality test against each target label, combined
elementwise with `|`, over an arbitrary index set (the voxel grid). -/
def white_matter {ι : Type} (labels : ι → ℤ) : ι → Bool :=
  fun i => (decide (labels i = 1)) || (decide (labels i = 2))

/-- A streamline is an ordered sequence of 3D points; `s.shape[0]` is its
node count, i.e. the list length. -/
abbrev Streamline := List (ℝ × ℝ × ℝ)

/-- The length threshold used by the notebooks: `len_th = 10`. -/
def len_th : ℕ := 10

/-- Shallow embedding of `[s for s in streamlines if s.shape[0] > len_th]`,
parametrised by the threshold. -/
def streamline_filter (t : ℕ) (ss : List Streamline) : List Streamline :=
  ss.filter (fun s => decide (s.length > t))

/-- Numpy `astype(float)` on a boolean: `True ↦ 1.0`, `False ↦ 0.0`. -/
def boolToReal (b : Bool) : ℝ :=
  if b then 1 else 0

/-- One weight of the 1D Gaussian kernel used by
`ndi.gaussian_filter(..., sigma=0.25)`: with the default `truncate=4.0`
the kernel radius is `int(4.0*0.25 + 0.5) = 1`, so the kernel holds the
offsets `-1, 0, 1` with weights proportional to `exp(-d²/(2·0.25²))`,
normalised to sum to one. -/
noncomputable def gauss_w (d : ℤ) : ℝ :=
  Real.exp (-(d : ℝ) ^ 2 / (2 * 0.25 ^ 2)) /
    (Real.exp (-(0 : ℝ) ^ 2 / (2 * 0.25 ^ 2)) +
      2 * Real.exp (-(1 : ℝ) ^ 2 / (2 * 0.25 ^ 2)))

/-- The 27 offset triples of the radius-1 separable 3D kernel. -/
def offs : Finset (ℤ × ℤ × ℤ) :=
  ({-1, 0, 1} : Finset ℤ) ×ˢ (({-1, 0, 1} : Finset ℤ) ×ˢ ({-1, 0, 1} : Finset ℤ))

/-- Model of `ndi.gaussian_filter(V, sigma=0.25)` at one voxel of a volume
indexed by `ℤ³` (the separable radius-1 Gaussian convolution; boundary
modes are immaterial on the unbounded grid model). -/
noncomputable def gaussian_filter (V : ℤ × ℤ × ℤ → ℝ) (p : ℤ × ℤ × ℤ) : ℝ :=
  ∑ d ∈ offs, gauss_w d.1 * gauss_w d.2.1 * gauss_w d.2.2 *
    V (p.1 + d.1, p.2.1 + d.2.1, p.2.2 + d.2.2)

/-- Shallow embedding of
`V1_smoothed = ndi.gaussian_filter(V1.astype(float), sigma=0.25).astype(bool)`
at one voxel: `astype(bool)` is the nonzero test. -/
def V1_smoothed (V : ℤ × ℤ × ℤ → Bool) (p : ℤ × ℤ × ℤ) : Prop :=
  gaussian_filter (fun q => boolToReal (V q)) p ≠ 0

/-- A concrete label volume used by witness statements. -/
def labels0 : Fin 3 → ℤ := ![1, 2, 5]

/-- A concrete streamline list used by witness statements: one 1-node
streamline and one 12-node streamline. -/
def ss0 : List Streamline :=
  [[((0 : ℝ), (0 : ℝ), (0 : ℝ))], List.replicate 12 ((0 : ℝ), (0 : ℝ), (0 : ℝ))]

/-- A concrete all-true ROI volume used by witness statements. -/
def vtrue : ℤ × ℤ × ℤ → Bool := fun _ => true

/-- The fully collapsed closed form of `b_value`: the conversion constants
compose to `4 π² 10⁻⁹`. -/
lemma b_value_eq (g delta Delta gamma : ℝ) :
    b_value g delta Delta gamma =
      4 * Real.pi ^ 2 * 1e-9 * gamma ^ 2 * g ^ 2 * delta ^ 2 *
        (Delta - delta / 3) := by
  unfold b_value
  ring_nf

/-- `b_value` as a positive-prefactor times the geometry-dependent part. -/
lemma b_value_eq2 (g delta Delta gamma : ℝ) :
    b_value g delta Delta gamma =
      (4 * Real.pi ^ 2 * 1e-9 * gamma ^ 2) *
        (g ^ 2 * (delta ^ 2 * (Delta - delta / 3))) := by
  rw [b_value_eq]; ring

/-- Claim C1: for g ≥ 0, δ > 0, Δ ≥ δ, γ > 0, `b_value` returns
1000 · γr² · G² · δ² · (Δ − δ/3) with G = g·10⁻⁹ and γr = 2π·γ·10³:
the code's unit conversions `1e-3*1e-6` and `1e6*1e-3` compose to the
claimed 10⁻⁹ and 10³ factors. -/
theorem b_value_formula (g delta Delta gamma : ℝ)
    (hg : 0 ≤ g) (hd : 0 < delta) (hD : delta ≤ Delta) (hgam : 0 < gamma) :
    b_value g delta Delta gamma =
      1000 * ((2 * Real.pi * gamma * 1e3) ^ 2 * (g * 1e-9) ^ 2 *
        delta ^ 2 * (Delta - delta / 3)) := by
  unfold b_value
  ring_nf

/-- Closed instance of `b_value_formula` at the notebook's example inputs. -/
theorem b_value_formula_witness :
    b_value 40 13 60 42.576 =
      1000 * ((2 * Real.pi * 42.576 * 1e3) ^ 2 * ((40 : ℝ) * 1e-9) ^ 2 *
        (13 : ℝ) ^ 2 * ((60 : ℝ) - 13 / 3)) :=
  b_value_formula 40 13 60 42.576 (by norm_num) (by norm_num) (by norm_num)
    (by norm_num)

/-- Claim C2, counterexample: at the example inputs the returned b value is
below 1800 s/mm², so it does not lie in the claimed 1800–2000 range. -/
theorem b_value_example_not_1800 : b_value 40 13 60 42.576 < 1800 := by
  rw [b_value_eq]
  nlinarith [Real.pi_gt_3141592, Real.pi_lt_3141593, Real.pi_pos]

/-- Claim C2, amended: `viz_gradients(40, 13, 60)` annotates the plot with
the b value returned by `b_value(40, 13, 60, 42.576)`; the displayed
integer `int(b)` is 1077, i.e. the value is ≈1077 s/mm², not 1800–2000. -/
theorem viz_b_label_value :
    viz_b 40 13 60 = b_value 40 13 60 42.576 ∧
    pyInt (viz_b 40 13 60) = 1077 := by
  have h1 : (1077 : ℝ) ≤ b_value 40 13 60 42.576 := by
    rw [b_value_eq]
    nlinarith [Real.pi_gt_3141592, Real.pi_lt_3141593, Real.pi_pos]
  have h2 : b_value 40 13 60 42.576 < 1078 := by
    rw [b_value_eq]
    nlinarith [Real.pi_gt_3141592, Real.pi_lt_3141593, Real.pi_pos]
  have hv : viz_b 40 13 60 = b_value 40 13 60 42.576 := rfl
  refine ⟨hv, ?_⟩
  have h0 : (0 : ℝ) ≤ viz_b 40 13 60 := by rw [hv]; linarith
  unfold pyInt
  rw [if_pos h0]
  rw [Int.floor_eq_iff]
  rw [hv]
  constructor
  · exact_mod_cast h1
  · push_cast
    linarith

/-- Claim C3, counterexample: at δ = −13 < 0 the function does not raise a
validation error: it returns a (positive) number. -/
theorem b_value_no_validation :
    b_value_run 40 (-13) 60 42.576 = Except.ok (b_value 40 (-13) 60 42.576) ∧
    0 < b_value 40 (-13) 60 42.576 := by
  refine ⟨rfl, ?_⟩
  rw [b_value_eq]
  nlinarith [Real.pi_gt_3141592, Real.pi_lt_3141593, Real.pi_pos]

/-- Claim C3, amended: `b_value` performs no input validation: for δ < 0 or
Δ < 0 it still returns the formula's value rather than raising. -/
theorem b_value_total (g delta Delta gamma : ℝ)
    (h : delta < 0 ∨ Delta < 0) :
    b_value_run g delta Delta gamma =
      Except.ok (4 * Real.pi ^ 2 * 1e-9 * gamma ^ 2 * g ^ 2 * delta ^ 2 *
        (Delta - delta / 3)) := by
  unfold b_value_run
  rw [b_value_eq]

/-- Closed instance of `b_value_total` at δ = −13 < 0. -/
theorem b_value_total_witness :
    b_value_run 40 (-13) 60 42.576 =
      Except.ok (4 * Real.pi ^ 2 * 1e-9 * (42.576 : ℝ) ^ 2 * (40 : ℝ) ^ 2 *
        (-13 : ℝ) ^ 2 * ((60 : ℝ) - (-13) / 3)) :=
  b_value_total 40 (-13) 60 42.576 (Or.inl (by norm_num))

/-- Claim C6, counterexample: with S0 = 0 the signal is identically zero, so
`b ↦ ST_equation(b, D, S0)` is not strictly decreasing for every S0. -/
theorem ST_equation_not_strict_anti :
    (0 : ℝ) < 1 ∧ ST_equation 0 1 0 = ST_equation 1 1 0 := by
  constructor
  · norm_num
  · simp [ST_equation]

/-- Claim C6, amended: for D > 0 and S0 > 0,
`b ↦ ST_equation(b, D, S0) = S0·exp(−b·D)` is strictly decreasing. -/
theorem ST_equation_strict_anti (b b' D S0 : ℝ)
    (hD : 0 < D) (hS0 : 0 < S0) (hbb : b < b') :
    ST_equation b' D S0 < ST_equation b D S0 := by
  unfold ST_equation
  have h : Real.exp (-b' * D) < Real.exp (-b * D) := by
    apply Real.exp_lt_exp.mpr
    nlinarith
  exact mul_lt_mul_of_pos_left h hS0

/-- Closed instance of `ST_equation_strict_anti` at b = 1 < 2, D = 1, S0 = 1. -/
theorem ST_equation_strict_anti_witness :
    ST_equation 2 1 1 < ST_equation 1 1 1 :=
  ST_equation_strict_anti 1 2 1 1 (by norm_num) (by norm_num) (by norm_num)

/-- Claim C10: `b_value` is even in its gradient argument, and a negative g
is accepted without error: the run returns the same value as for g. -/
theorem b_value_even (g delta Delta gamma : ℝ) :
    b_value (-g) delta Delta gamma = b_value g delta Delta gamma ∧
    b_value_run (-g) delta Delta gamma =
      Except.ok (b_value g delta Delta gamma) := by
  have h : b_value (-g) delta Delta gamma = b_value g delta Delta gamma := by
    rw [b_value_eq, b_value_eq]
    ring
  exact ⟨h, by rw [b_value_run, h]⟩

/-- Claim C4: on the domain g ≥ 0, 0 < δ ≤ Δ, γ > 0, `b_value` is
non-negative and monotonically increasing in each of g, δ and Δ when the
other parameters are fixed. -/
theorem b_value_nonneg_mono (g g' delta delta' Delta Delta' gamma : ℝ)
    (hg : 0 ≤ g) (hd : 0 < delta) (hdD : delta ≤ Delta) (hgam : 0 < gamma) :
    0 ≤ b_value g delta Delta gamma ∧
    (g ≤ g' → b_value g delta Delta gamma ≤ b_value g' delta Delta gamma) ∧
    (delta ≤ delta' → delta' ≤ Delta →
      b_value g delta Delta gamma ≤ b_value g delta' Delta gamma) ∧
    (Delta ≤ Delta' →
      b_value g delta Delta gamma ≤ b_value g delta Delta' gamma) := by
  have hA : 0 < 4 * Real.pi ^ 2 * 1e-9 * gamma ^ 2 := by positivity
  have hX : 0 ≤ Delta - delta / 3 := by linarith
  refine ⟨?_, ?_, ?_, ?_⟩
  · rw [b_value_eq2]
    exact mul_nonneg hA.le
      (mul_nonneg (sq_nonneg g) (mul_nonneg (sq_nonneg delta) hX))
  · intro hgg
    rw [b_value_eq2, b_value_eq2]
    refine mul_le_mul_of_nonneg_left ?_ hA.le
    have hg2 : g ^ 2 ≤ g' ^ 2 := by nlinarith
    exact mul_le_mul_of_nonneg_right hg2 (mul_nonneg (sq_nonneg delta) hX)
  · intro h1 h2
    rw [b_value_eq2, b_value_eq2]
    refine mul_le_mul_of_nonneg_left ?_ hA.le
    refine mul_le_mul_of_nonneg_left ?_ (sq_nonneg g)
    have hd' : (0 : ℝ) ≤ delta' := le_trans hd.le h1
    have hDpos : (0 : ℝ) < Delta := lt_of_lt_of_le hd hdD
    nlinarith [mul_nonneg (sub_nonneg.mpr h1)
        (mul_nonneg (sub_nonneg.mpr h2) hd.le),
      mul_nonneg (sub_nonneg.mpr h1) (mul_nonneg (sub_nonneg.mpr h2) hd'),
      mul_nonneg (sub_nonneg.mpr h1)
        (mul_nonneg (sub_nonneg.mpr (le_trans h1 h2)) hd.le),
      mul_nonneg (sub_nonneg.mpr h1) (mul_nonneg hDpos.le hd'),
      mul_nonneg (sub_nonneg.mpr h1) (mul_nonneg hDpos.le hd.le)]
  · intro hDD
    rw [b_value_eq2, b_value_eq2]
    refine mul_le_mul_of_nonneg_left ?_ hA.le
    refine mul_le_mul_of_nonneg_left ?_ (sq_nonneg g)
    nlinarith [sq_nonneg delta]

/-- Closed instance of `b_value_nonneg_mono` at the example inputs. -/
theorem b_value_nonneg_mono_witness : 0 ≤ b_value 40 13 60 42.576 :=
  (b_value_nonneg_mono 40 50 13 14 60 70 42.576 (by norm_num) (by norm_num)
    (by norm_num) (by norm_num)).1

/-- Claim C5, counterexample: with δ = 13, Δ = 60 and the default γ, the
value at g = −10 exceeds the value at g = 0, so g ↦ b_value(g, δ, Δ) is
not strictly increasing over all of g. -/
theorem b_value_not_strict_mono_g :
    (-10 : ℝ) < 0 ∧ b_value 0 13 60 42.576 < b_value (-10) 13 60 42.576 := by
  refine ⟨by norm_num, ?_⟩
  rw [b_value_eq, b_value_eq]
  nlinarith [Real.pi_gt_3141592, Real.pi_pos]

/-- Claim C5, amended: for fixed 0 < δ ≤ Δ and the default γ,
g ↦ b_value(g, δ, Δ) is strictly increasing on g ≥ 0 (the restriction to
non-negative g is forced by evenness in g; Δ ≥ δ keeps the factor
Δ − δ/3 positive). -/
theorem b_value_strict_mono_g (g g' delta Delta : ℝ)
    (hg : 0 ≤ g) (hgg : g < g') (hd : 0 < delta) (hdD : delta ≤ Delta) :
    b_value g delta Delta 42.576 < b_value g' delta Delta 42.576 := by
  rw [b_value_eq2, b_value_eq2]
  have hA : 0 < 4 * Real.pi ^ 2 * 1e-9 * (42.576 : ℝ) ^ 2 := by positivity
  refine mul_lt_mul_of_pos_left ?_ hA
  have hXpos : 0 < delta ^ 2 * (Delta - delta / 3) := by
    have h3 : 0 < Delta - delta / 3 := by linarith
    positivity
  have hg2 : g ^ 2 < g' ^ 2 := by nlinarith
  exact mul_lt_mul_of_pos_right hg2 hXpos

/-- Closed instance of `b_value_strict_mono_g` at g = 40 < 50. -/
theorem b_value_strict_mono_g_witness :
    b_value 40 13 60 42.576 < b_value 50 13 60 42.576 :=
  b_value_strict_mono_g 40 50 13 60 (by norm_num) (by norm_num) (by norm_num)
    (by norm_num)

/-- Claim C7: the white-matter mask is true exactly on labels 1 and 2, and
re-deriving the mask from its own boolean values (coerced back to
integers, as numpy's `==` does) is the identity. -/
theorem white_matter_mask {ι : Type} (L : ι → ℤ) (i : ι) :
    (white_matter L i = true ↔ (L i = 1 ∨ L i = 2)) ∧
    white_matter (fun j => boolToInt (white_matter L j)) i =
      white_matter L i := by
  constructor
  · simp [white_matter]
  · by_cases h1 : L i = 1 <;> by_cases h2 : L i = 2 <;>
      simp [white_matter, boolToInt, h1, h2]

/-- Closed instance of `white_matter_mask` on a concrete label volume. -/
theorem white_matter_mask_witness :
    (white_matter labels0 0 = true ↔ (labels0 0 = 1 ∨ labels0 0 = 2)) ∧
    white_matter (fun j => boolToInt (white_matter labels0 j)) 0 =
      white_matter labels0 0 :=
  white_matter_mask labels0 0

/-- Claim C8: the length filter returns a sublist of its input (original
relative order, elements unchanged) holding exactly the streamlines with
node count > t, and it is idempotent. -/
theorem streamline_filter_spec (t : ℕ) (ss : List Streamline) :
    List.Sublist (streamline_filter t ss) ss ∧
    (∀ s ∈ streamline_filter t ss, s.length > t) ∧
    (∀ s ∈ ss, s.length > t → s ∈ streamline_filter t ss) ∧
    streamline_filter t (streamline_filter t ss) = streamline_filter t ss := by
  refine ⟨List.filter_sublist ss, ?_, ?_, ?_⟩
  · intro s hs
    have hd := List.of_mem_filter hs
    simpa using hd
  · intro s hs h
    exact List.mem_filter.mpr ⟨hs, by simpa using h⟩
  · unfold streamline_filter
    rw [List.filter_filter]
    simp

/-- Closed instance of `streamline_filter_spec` on a concrete list. -/
theorem streamline_filter_spec_witness :
    List.Sublist (streamline_filter len_th ss0) ss0 :=
  (streamline_filter_spec len_th ss0).1

/-- Claim C9: every voxel that is true before the Gaussian smoothing step is
still true after it: the kernel's centre weight is positive and all
contributions are non-negative, so the filtered value at a true voxel is
nonzero and `astype(bool)` keeps it true. -/
theorem gaussian_smoothing_grows (V : ℤ × ℤ × ℤ → Bool) (p : ℤ × ℤ × ℤ)
    (h : V p = true) : V1_smoothed V p := by
  have hw : ∀ d : ℤ, 0 < gauss_w d := by
    intro d
    unfold gauss_w
    positivity
  have hpos : 0 < gaussian_filter (fun q => boolToReal (V q)) p := by
    unfold gaussian_filter
    apply Finset.sum_pos'
    · intro d _
      have h0 : 0 ≤ boolToReal (V (p.1 + d.1, p.2.1 + d.2.1, p.2.2 + d.2.2)) := by
        unfold boolToReal
        split <;> norm_num
      exact mul_nonneg
        (mul_nonneg (mul_nonneg (hw d.1).le (hw d.2.1).le) (hw d.2.2).le) h0
    · refine ⟨((0 : ℤ), (0 : ℤ), (0 : ℤ)), by decide, ?_⟩
      have hV : V (p.1 + 0, p.2.1 + 0, p.2.2 + 0) = true := by simpa using h
      simp only [hV, boolToReal, if_pos, mul_one]
      exact mul_pos (mul_pos (hw 0) (hw 0)) (hw 0)
  exact ne_of_gt hpos

/-- Closed instance of `gaussian_smoothing_grows` on the all-true volume. -/
theorem gaussian_smoothing_grows_witness : V1_smoothed vtrue (0, 0, 0) :=
  gaussian_smoothing_grows vtrue (0, 0, 0) rfl
